import Mathlib

set_option maxRecDepth 4000

/-!
Shallow embedding of the two core components of the repository:

* `monetization_brain.py` — the caption validation-and-fallback pipeline
  (`_parse_json_response`, `_fallback_response`, `get_safe_fallback`,
  `save_successful_caption`, `analyze_content`);
* `community_promoter.py` — the rate-limited, deduplicated promotion guard
  (`_can_run`, `_register_success`, `_promote_sync`, `_extract_video_id`,
  `_get_template`).

Python strings are modelled as Lean `String`s with all operations
re-implemented over `List Char` (so that every definition reduces in the
kernel); Python `json` documents are modelled by the inductive `Json`
below together with an executable parser mirroring `json.loads` on the
subset of JSON this program produces and consumes (integer numerals,
the standard single-character string escapes, no floats and no unicode
escapes).  Wall-clock instants are modelled as `Int` seconds.  External
collaborators (the Gemini call, the platform service) are modelled by
their observable behaviour: either a returned value or a raised
exception, passed in as an `Except` parameter.
-/

/-- JSON values as produced by Python's `json.loads` on the embedded
subset (numbers restricted to integers). -/
inductive Json where
  | null
  | bool (b : Bool)
  | num (n : Int)
  | str (s : String)
  | arr (xs : List Json)
  | obj (kvs : List (String × Json))

/-- Lookup of a key in a parsed JSON object; the fold keeps the last
binding, matching how `json.loads` resolves duplicate keys in a dict. -/
def lookupLast (kvs : List (String × Json)) (k : String) : Option Json :=
  kvs.foldl (fun acc kv => if kv.1 = k then some kv.2 else acc) none

/-- Python `d.get(k)` on a parsed JSON document (returns `none` both for a
missing key and for a non-dict receiver). -/
def jget (j : Json) (k : String) : Option Json :=
  match j with
  | .obj kvs => lookupLast kvs k
  | _ => none

/-- Python truthiness of a JSON value (`bool(x)`). -/
def Json.truthy : Json → Bool
  | .null => false
  | .bool b => b
  | .num n => n != 0
  | .str s => !s.data.isEmpty
  | .arr xs => !xs.isEmpty
  | .obj kvs => !kvs.isEmpty

/-- Truthiness of the result of a `.get` (Python `None` is falsy). -/
def truthyO : Option Json → Bool
  | none => false
  | some j => j.truthy

/-- Whitespace accepted between JSON tokens by Python's `json` module. -/
def jsonWs (c : Char) : Bool :=
  c = ' ' || c = '\t' || c = '\n' || c = '\r'

def skipWs (cs : List Char) : List Char := cs.dropWhile jsonWs

/-- Table of the single-character JSON string escapes (`\uXXXX` is
outside the embedded subset): escape letter paired with the decoded
character. -/
def escTable : List (Char × Char) :=
  [('"', '"'), ('\\', '\\'), ('/', '/'), ('n', '\n'), ('t', '\t'), ('r', '\r'),
    ('b', Char.ofNat 8), ('f', Char.ofNat 12)]

/-- Decoding of one escape letter via `escTable`. -/
def escChar (e : Char) : Option Char :=
  (escTable.find? (fun pr => pr.1 = e)).map (fun pr => pr.2)

/-- Body of a JSON string literal, after the opening quote: returns the
decoded characters and the input after the closing quote.  Unescaped
control characters are rejected, as in strict-mode `json.loads`. -/
def parseStrChars : List Char → Option (List Char × List Char)
  | [] => none
  | c :: rest =>
    if c = '"' then some ([], rest)
    else if c = '\\' then
      match rest with
      | [] => none
      | e :: rest2 =>
        match escChar e, parseStrChars rest2 with
        | some ec, some (s, r) => some (ec :: s, r)
        | _, _ => none
    else if c.toNat < 32 then none
    else
      match parseStrChars rest with
      | some (s, r) => some (c :: s, r)
      | none => none

def digitsToNat (ds : List Char) : Nat :=
  ds.foldl (fun acc c => acc * 10 + (c.toNat - 48)) 0

/-- Rejection of a float/exponent continuation after the integer part. -/
def floatFollows (rest : List Char) : Bool :=
  match rest with
  | k :: _ => k = '.' || k = 'e' || k = 'E'
  | [] => false

/-- Unsigned part of a JSON number token: `0`, or a digit run not led by
zero.  Returns the value and the remaining input. -/
def parseUnsigned (cs : List Char) : Option (Int × List Char) :=
  match cs with
  | [] => none
  | c :: cs2 =>
    if c = '0' then
      if floatFollows cs2 then none else some (0, cs2)
    else if c.isDigit then
      let rest := cs2.dropWhile Char.isDigit
      if floatFollows rest then none
      else some (Int.ofNat (digitsToNat (c :: cs2.takeWhile Char.isDigit)), rest)
    else none

/-- JSON number token: optional minus, then `0` or a nonzero-led digit
run; a float or exponent continuation is outside the embedded subset and
makes the parse fail. -/
def parseNumber (cs : List Char) : Option (Json × List Char) :=
  match cs with
  | '-' :: cs1 =>
    match parseUnsigned cs1 with
    | some (n, rest) => some (.num (-n), rest)
    | none => none
  | _ =>
    match parseUnsigned cs with
    | some (n, rest) => some (.num n, rest)
    | none => none

/-- Parsing mode: a JSON value, the members of an object after `\x7b`, or
the elements of an array after `[`. -/
inductive PMode where
  | value | members | elems

/-- Intermediate parse results for the three modes. -/
inductive PRes where
  | val (j : Json)
  | mems (kvs : List (String × Json))
  | elts (xs : List Json)

/-- Fuel-driven recursive-descent JSON parser (structural on the fuel so
that it reduces in the kernel).  Mirrors the grammar accepted by
`json.loads` on the embedded subset. -/
def parseF : Nat → PMode → List Char → Option (PRes × List Char)
  | 0, _, _ => none
  | Nat.succ fuel, PMode.value, cs =>
    match skipWs cs with
    | '{' :: rest =>
      match skipWs rest with
      | '}' :: r2 => some (.val (.obj []), r2)
      | r2 =>
        match parseF fuel .members r2 with
        | some (.mems kvs, r3) => some (.val (.obj kvs), r3)
        | _ => none
    | '[' :: rest =>
      match skipWs rest with
      | ']' :: r2 => some (.val (.arr []), r2)
      | r2 =>
        match parseF fuel .elems r2 with
        | some (.elts xs, r3) => some (.val (.arr xs), r3)
        | _ => none
    | '"' :: rest =>
      match parseStrChars rest with
      | some (s, r) => some (.val (.str (String.mk s)), r)
      | none => none
    | 't' :: 'r' :: 'u' :: 'e' :: rest => some (.val (.bool true), rest)
    | 'f' :: 'a' :: 'l' :: 's' :: 'e' :: rest => some (.val (.bool false), rest)
    | 'n' :: 'u' :: 'l' :: 'l' :: rest => some (.val .null, rest)
    | c :: rest =>
      if c = '-' || c.isDigit then
        match parseNumber (c :: rest) with
        | some (j, r) => some (.val j, r)
        | none => none
      else none
    | [] => none
  | Nat.succ fuel, PMode.members, cs =>
    match skipWs cs with
    | '"' :: rest =>
      match parseStrChars rest with
      | some (k, r1) =>
        match skipWs r1 with
        | ':' :: r2 =>
          match parseF fuel .value r2 with
          | some (.val v, r3) =>
            match skipWs r3 with
            | ',' :: r4 =>
              match parseF fuel .members r4 with
              | some (.mems kvs, r5) => some (.mems ((String.mk k, v) :: kvs), r5)
              | _ => none
            | '}' :: r4 => some (.mems [(String.mk k, v)], r4)
            | _ => none
          | _ => none
        | _ => none
      | none => none
    | _ => none
  | Nat.succ fuel, PMode.elems, cs =>
    match parseF fuel .value cs with
    | some (.val v, r1) =>
      match skipWs r1 with
      | ',' :: r2 =>
        match parseF fuel .elems r2 with
        | some (.elts xs, r3) => some (.elts (v :: xs), r3)
        | _ => none
      | ']' :: r2 => some (.elts [v], r2)
      | _ => none
    | _ => none

/-- Embedding of Python `json.loads`: parse one value and require only
whitespace to remain (otherwise `json.loads` raises `Extra data`). -/
def jsonLoads (s : String) : Option Json :=
  match parseF (2 * s.data.length + 2) .value s.data with
  | some (.val j, rest) => if (skipWs rest).isEmpty then some j else none
  | _ => none

/-! ### Python string operations, re-implemented over `List Char` -/

/-- Whitespace for Python `str.strip` / `str.split()` (the ASCII cases). -/
def pySpaceChar (c : Char) : Bool :=
  c = ' ' || c = '\t' || c = '\n' || c = '\r' || c = Char.ofNat 11 || c = Char.ofNat 12

/-- Python `str.strip()`. -/
def pyStrip (s : String) : String :=
  String.mk (((s.data.dropWhile pySpaceChar).reverse.dropWhile pySpaceChar).reverse)

def pyLowerChar (c : Char) : Char :=
  if 'A' ≤ c && c ≤ 'Z' then Char.ofNat (c.toNat + 32) else c

/-- Python `str.lower()` (ASCII range; all fixed phrases compared against
it in the source are ASCII). -/
def pyLower (s : String) : String := String.mk (s.data.map pyLowerChar)

/-- Python `s.startswith(p)`. -/
def pyStartsWith (s p : String) : Bool := p.data.isPrefixOf s.data

/-- Python `c in s` for a single character `c`. -/
def pyContainsChar (s : String) (c : Char) : Bool := s.data.contains c

/-- Splitter for Python `str.split()` with no arguments: maximal
non-whitespace runs, in order. -/
def wordsAux : List Char → List Char → List (List Char)
  | [], acc => if acc.isEmpty then [] else [acc.reverse]
  | c :: rest, acc =>
    if pySpaceChar c then
      if acc.isEmpty then wordsAux rest [] else acc.reverse :: wordsAux rest []
    else wordsAux rest (c :: acc)

/-- Number of words of a Python string, `len(s.split())`. -/
def wordCount (s : String) : Nat := (wordsAux s.data []).length

/-- Splitter for Python `str.split(sep)` with a nonempty separator
(fuel-driven so it reduces in the kernel; the fuel is always ample). -/
def splitOnFuel (sep : List Char) : Nat → List Char → List Char → List (List Char)
  | 0, cs, acc => [acc.reverse ++ cs]
  | Nat.succ fuel, cs, acc =>
    match cs with
    | [] => [acc.reverse]
    | c :: rest =>
      if sep.isPrefixOf cs then acc.reverse :: splitOnFuel sep fuel (cs.drop sep.length) []
      else splitOnFuel sep fuel rest (c :: acc)

/-- Python `s.split(sep)` for a nonempty separator. -/
def pySplit (s sep : String) : List String :=
  (splitOnFuel sep.data (s.data.length + 1) s.data []).map String.mk

/-- Substring test over character lists. -/
def isSubstrList (needle : List Char) : List Char → Bool
  | [] => needle.isEmpty
  | c :: rest => needle.isPrefixOf (c :: rest) || isSubstrList needle rest

/-- Python substring membership `sub in hay`. -/
def strContainsSub (hay sub : String) : Bool := isSubstrList sub.data hay.data

/-- Python `s[:n]`. -/
def pyTake (s : String) (n : Nat) : String := String.mk (s.data.take n)

/-- Boolean membership of a string in a list of strings (kernel-reducible
replacement for `List.contains`). -/
def strInList (s : String) (l : List String) : Bool :=
  l.any (fun x => x = s)

/-- Kernel-reducible membership of a character in a string. -/
def charInStr (s : String) (c : Char) : Bool :=
  s.data.any (fun x => x = c)

/-! ### `monetization_brain.py` -/

/-- Embedding of `re.search` for the pattern used by
`_parse_json_response` (an opening brace, any characters with DOTALL,
a closing brace, the group being greedy): the match, when it exists,
runs from the first opening brace of the text to the last closing brace,
and it exists exactly when some closing brace follows some opening
brace. -/
def extractJsonSpan (text : String) : Option String :=
  let cs := text.data
  match cs.findIdx? (fun c => c = '{'), cs.reverse.findIdx? (fun c => c = '}') with
  | some i, some jr =>
    let j := cs.length - 1 - jr
    if i < j then some (String.mk ((cs.drop i).take (j - i + 1))) else none
  | _, _ => none

/-- Result dictionary shape shared by the three return sites of
`_parse_json_response` and by `_fallback_response`.  Optional fields
model dictionary keys that are absent from some of the returned Python
dicts (reading an absent key with `.get` yields Python `None`).  The
spec's `final_text` is the source's `final_caption`, and the spec's
`style` is the source's `caption_style`. -/
structure AnalysisResult where
  approved : Option Json
  final_caption : String
  caption : Option String
  caption_style : Option String
  risk_level : Json
  risk_reason : Json
  transformation_score : Option Json
  verdict : Option Json
  source : String

/-- The fixed banned label starts of validation Rule B. -/
def bannedLabelStarts : List String :=
  ["caption:", "title:", "description:", "output:"]

/-- The fixed banned classification phrases of validation Rule C. -/
def bannedKeywords : List String :=
  ["editorial", "approved", "safe context", "public domain", "ypp safe"]

/-- Embedding of `get_safe_fallback`.  The persisted store
(`caption_prompt.json`) is modelled by `Option Json`: `none` covers a
missing, unreadable or unparseable file (the code swallows any exception
and every non-dict document, or a non-string `caption_final`, also ends
in the hardcoded default); `some j` is the parsed document.  The stored
caption is reused only when it is longer than five characters, has no
hash sign and has at least two words. -/
def get_safe_fallback (store : Option Json) : String :=
  match store with
  | some (.obj kvs) =>
    match lookupLast kvs "caption_final" with
    | some (.str val) =>
      if val.data.length > 5 && !(charInStr val '#') && wordCount val ≥ 2 then val
      else "A quiet moment captured today"
    | _ => "A quiet moment captured today"
  | _ => "A quiet moment captured today"

/-- Embedding of `_fallback_response`.  The `caption` argument of the
Python method is kept although the body never reads it; the optional
`error` is `str(e)` of the exception that triggered the fallback. -/
def fallback_response (caption : String) (error : Option String) (store : Option Json) :
    AnalysisResult :=
  let safe_cap := get_safe_fallback store
  let quota := match error with
    | some e => strContainsSub (pyLower e) "429" || strContainsSub (pyLower e) "quota"
    | none => false
  { approved := some (.bool true)
    final_caption := safe_cap
    caption := some safe_cap
    caption_style := some "FALLBACK"
    risk_level := .str (if quota then "UNKNOWN" else "LOW")
    risk_reason := .str (if quota then "Quota Exceeded (429 Error), so Brain is Offline."
      else "Brain Offline - Used Safe Template")
    transformation_score := none
    verdict := none
    source := "public_social_media" }

/-- The success dictionary of `_parse_json_response` (all validation
rules passed). -/
def successResult (caption : String) (data : Json) : AnalysisResult :=
  { approved := some (.bool true)
    final_caption := caption
    caption := none
    caption_style := some "EDITORIAL"
    risk_level := (jget data "risk_level").getD (.str "LOW")
    risk_reason := (jget data "risk_reason").getD (.str "Approved by safety filter")
    transformation_score := some ((jget data "transformation_score").getD (.num 10))
    verdict := some ((jget data "verdict").getD (.str "Derivative"))
    source := "public_social_media" }

/-- The rejection dictionary of `_parse_json_response` (record not
approved): note that the Python dict carries neither an `approved` key
nor a `caption_style` key. -/
def rejectionResult (data : Json) (original_title : String) : AnalysisResult :=
  { approved := none
    final_caption := original_title
    caption := none
    caption_style := none
    risk_level := .str "HIGH"
    risk_reason := (jget data "risk_reason").getD (.str "Brain rejected content")
    transformation_score := none
    verdict := none
    source := "public_social_media" }

/-- Rules A–D of `_parse_json_response` applied to the stripped caption
candidate. -/
def validateCaption (caption : String) (data : Json) (original_title : String)
    (store : Option Json) : AnalysisResult :=
  if wordCount caption < 4 ∨ 25 < wordCount caption then
    fallback_response original_title (some "Validation: Length") store
  else if bannedLabelStarts.any (fun p => pyStartsWith (pyLower caption) p) then
    fallback_response original_title (some "Validation: Prefix") store
  else if strInList (pyLower caption) bannedKeywords then
    fallback_response original_title (some "Validation: Classification") store
  else if charInStr caption '#' || charInStr caption '@' then
    fallback_response original_title (some "Validation: Hashtag") store
  else successResult caption data

/-- Handling of a successfully parsed record: the approval gate, then the
caption extraction (`data.get("caption_final", "")` followed by
`.strip()`; a present but non-string value makes `.strip()` raise
`AttributeError`, which the enclosing handler converts to a fallback). -/
def processRecord (data : Json) (original_title : String) (store : Option Json) :
    AnalysisResult :=
  if truthyO (jget data "approved") = false then rejectionResult data original_title
  else
    match (jget data "caption_final").getD (.str "") with
    | .str raw => validateCaption (pyStrip raw) data original_title store
    | _ => fallback_response original_title (some "AttributeError") store

/-- Embedding of `_parse_json_response`: regex span extraction, then
`json.loads`, then the approval gate and validation rules; every failure
is converted to `_fallback_response`. -/
def parse_json_response (text : String) (original_title : String) (store : Option Json) :
    AnalysisResult :=
  match extractJsonSpan text with
  | none => fallback_response original_title (some "Invalid JSON") store
  | some span =>
    match jsonLoads span with
    | none => fallback_response original_title (some "JSON Decode") store
    | some data => processRecord data original_title store

/-- Input sanitisation of `analyze_content`: remove the control
characters, strip, truncate to 200 characters. -/
def sanitize_title (title : String) : String :=
  pyTake (pyStrip (String.mk
    (title.data.filter (fun c => !(c.toNat ≤ 31 || c.toNat = 127))))) 200

/-- Embedding of `analyze_content`.  `geminiActive` models
`self.provider == "gemini" and self.model`; the external call together
with reading `response.text` is modelled by its observable behaviour
`response : Except String String` (a raised exception carried as its
string form, or the returned text).  The enclosing `try`/`except`
converts any raise into `_fallback_response(title, error=e)`. -/
def analyze_content (geminiActive : Bool) (title : String)
    (response : Except String String) (store : Option Json) : AnalysisResult :=
  if !geminiActive then fallback_response title none store
  else
    match response with
    | .error e => fallback_response title (some e) store
    | .ok rtext => parse_json_response (pyStrip rtext) (sanitize_title title) store

/-- Embedding of `save_successful_caption` at the level of the persisted
document: on a successful atomic write the store afterwards holds
exactly the dumped dict (the `style` argument of the Python method is
accepted and unused, and the timestamp is the serialised
`datetime.now()`). -/
def save_successful_caption (caption : String) (source : String) (_style : String)
    (timestamp : String) : Option Json :=
  some (.obj [("caption_final", .str caption), ("last_source", .str source),
    ("timestamp", .str timestamp)])

/-- Style of an `AnalysisResult` as named by the spec (§3): binary, with
`FALLBACK` for the fallback-produced dicts and `VALIDATED` for
everything produced by the validator itself. -/
inductive SpecStyle where
  | VALIDATED | FALLBACK
deriving DecidableEq

/-- Modelled from the spec: the spec's `style` field of `AnalysisResult`
reads the source's `caption_style` key, `"FALLBACK"` meaning `FALLBACK`
and anything else (the validator's `"EDITORIAL"`, or the key being
absent as in the rejection dict) meaning `VALIDATED`. -/
def specStyle (r : AnalysisResult) : SpecStyle :=
  if r.caption_style = some "FALLBACK" then .FALLBACK else .VALIDATED

/-- Modelled from the spec: the spec's boolean `approved` field reads the
source dict's `approved` key the way every Python consumer does
(`result.get("approved")`), an absent key being falsy. -/
def specApproved (r : AnalysisResult) : Bool :=
  truthyO r.approved

/-! ### `community_promoter.py` -/

/-- The persisted guard state (`community_promo_state.json`):
`last_run` is the Unix time of the last successful promotion and
`posted_hashes` the bounded FIFO of content fingerprints. -/
structure GuardState where
  last_run : Int
  posted_hashes : List String

/-- The default state of `_load_state` (missing or unreadable file). -/
def initState : GuardState := { last_run := 0, posted_hashes := [] }

/-- Embedding of `_can_run`: the six-hour rate limit is checked first,
then the duplicate guard. -/
def can_run (s : GuardState) (now : Int) (content_hash : String) : Bool :=
  if now - s.last_run < 6 * 3600 then false
  else if strInList content_hash s.posted_hashes then false
  else true

/-- Embedding of `_register_success`: advance `last_run` to the current
time, append the fingerprint and keep only the last 50 entries. -/
def register_success (s : GuardState) (now : Int) (content_hash : String) : GuardState :=
  { last_run := now
    posted_hashes :=
      if (s.posted_hashes ++ [content_hash]).length > 50 then
        (s.posted_hashes ++ [content_hash]).drop ((s.posted_hashes ++ [content_hash]).length - 50)
      else s.posted_hashes ++ [content_hash] }

/-- Embedding of `_get_template`: the four deterministic promotional
texts; the uniformly random `random.choice` is modelled by the explicit
`choice` index. -/
def get_template (choice : Fin 4) (clip_count : Int) (video_url : String) : String :=
  match choice.val with
  | 0 => toString clip_count ++ " must-see celebrity fashion moments ✨\nFull compilation is live — watch now 👇\n" ++ video_url
  | 1 => "A fresh compilation is up 🎬\n" ++ toString clip_count ++ " standout celebrity fashion moments in one video.\n▶️ " ++ video_url
  | 2 => "New compilation uploaded!\n" ++ toString clip_count ++ " celebrity looks worth watching 👀\nWatch here 👇\n" ++ video_url
  | _ => "Just dropped: " ++ toString clip_count ++ " celebrity fashion moments\nWatch the full video now 👇\n" ++ video_url

/-- Embedding of `_extract_video_id`. -/
def extract_video_id (url : String) : Option String :=
  if strContainsSub url "youtu.be" then
    some ((pySplit ((pySplit url "/").getLastD "") "?").headD "")
  else if strContainsSub url "v=" then
    some ((pySplit ((pySplit url "v=").getLastD "") "&").headD "")
  else none

/-- Python `.get(k)` where the receiver may not be a dict (in which case
the attribute access raises). -/
def pyDictGet (j : Json) (k : String) : Except String (Option Json) :=
  match j with
  | .obj kvs => .ok (lookupLast kvs k)
  | _ => .error "AttributeError"

/-- Python `x[0]` on a JSON value (raising `IndexError`, `KeyError` or
`TypeError` exactly where Python does). -/
def pyIndexZero (j : Json) : Except String Json :=
  match j with
  | .arr (x :: _) => .ok x
  | .arr [] => .error "IndexError"
  | .str s =>
    match s.data with
    | c :: _ => .ok (.str (String.mk [c]))
    | [] => .error "IndexError"
  | .obj _ => .error "KeyError"
  | _ => .error "TypeError"

/-- Python `x[k]` for a string key. -/
def pySubscriptStr (j : Json) (k : String) : Except String Json :=
  match j with
  | .obj kvs =>
    match lookupLast kvs k with
    | some v => .ok v
    | none => .error "KeyError"
  | _ => .error "TypeError"

/-- Observable behaviour of the platform collaborator inside one
`_promote_sync` call: what `channels().list(...).execute()` and
`commentThreads().insert(...).execute()` each return or raise. -/
structure ServiceBehavior where
  channelsResp : Except String Json
  insertResp : Except String Unit

/-- One promotion attempt: everything `_promote_sync` reads besides the
guard state.  `tCheck` is the `time.time()` read inside `_can_run` and
`tAct` the later `time.time()` read inside `_register_success`; `hashFn`
is the `hashlib.md5(...).hexdigest()` digest function, kept abstract. -/
structure Attempt where
  video_url : String
  clip_count : Int
  choice : Fin 4
  tCheck : Int
  tAct : Int
  hashFn : String → String
  service : ServiceBehavior

/-- The fingerprint `_promote_sync` computes for an attempt. -/
def fpOf (a : Attempt) : String :=
  a.hashFn (get_template a.choice a.clip_count a.video_url)

/-- Terminal outcome of one `_promote_sync` call; the skip constructors
record which silent-skip branch ran (each corresponds to one log line of
the source), and `skippedException` is the catch-all `except` handler. -/
inductive Outcome where
  | performed
  | skippedRateLimited
  | skippedDuplicate
  | skippedNoChannel
  | skippedNoVideoId
  | skippedException (e : String)
deriving DecidableEq

/-- Embedding of `_promote_sync`.  The returned triple is the outcome,
the guard state afterwards, and whether the side-effecting
`commentThreads().insert` call was issued.  Every exception raised in
the body (a collaborator raise, or a subscript error on an unexpected
response shape) is caught by the enclosing handler and becomes
`skippedException` with the state unchanged. -/
def promote_sync (s : GuardState) (a : Attempt) : Outcome × GuardState × Bool :=
  if a.tCheck - s.last_run < 6 * 3600 then (.skippedRateLimited, s, false)
  else if strInList (fpOf a) s.posted_hashes then (.skippedDuplicate, s, false)
  else
    match a.service.channelsResp with
    | .error e => (.skippedException e, s, false)
    | .ok resp =>
      match pyDictGet resp "items" with
      | .error e => (.skippedException e, s, false)
      | .ok itemsO =>
        match itemsO with
        | none => (.skippedNoChannel, s, false)
        | some items =>
          if !items.truthy then (.skippedNoChannel, s, false)
          else
            match pyIndexZero items with
            | .error e => (.skippedException e, s, false)
            | .ok item0 =>
              match pySubscriptStr item0 "id" with
              | .error e => (.skippedException e, s, false)
              | .ok _channel_id =>
                match extract_video_id a.video_url with
                | none => (.skippedNoVideoId, s, false)
                | some _vid =>
                  match a.service.insertResp with
                  | .error e => (.skippedException e, s, true)
                  | .ok _ => (.performed, register_success s a.tAct (fpOf a), true)

/-- Guard state after a sequence of promotion attempts. -/
def runTrace (s : GuardState) (as : List Attempt) : GuardState :=
  as.foldl (fun st a => (promote_sync st a).2.1) s

/-- The guard state seen by the `i`-th attempt of a trace. -/
def preState (s : GuardState) (as : List Attempt) (i : Nat) : GuardState :=
  runTrace s (as.take i)

/-- Clock sanity of a trace: within each attempt the `time.time()` read
by the rate-limit check does not come after the one recorded on
success. -/
def wellTimed (as : List Attempt) : Prop :=
  ∀ a ∈ as, a.tCheck ≤ a.tAct

/-! ### Statement vocabulary and witness fixtures -/

/-- Structural rules 3–6 of the validator (§4.5 of the spec) as a
predicate on a display text: word count within 4..25, no banned label
start (case-insensitively), not a banned classification phrase after
case-folding, and neither a hash sign nor an at sign. -/
abbrev validCaptionText (c : String) : Prop :=
  4 ≤ wordCount c ∧ wordCount c ≤ 25
  ∧ pyStartsWith (pyLower c) "caption:" = false
  ∧ pyStartsWith (pyLower c) "title:" = false
  ∧ pyStartsWith (pyLower c) "description:" = false
  ∧ pyStartsWith (pyLower c) "output:" = false
  ∧ strInList (pyLower c) bannedKeywords = false
  ∧ charInStr c '#' = false
  ∧ charInStr c '@' = false

/-- The minimal re-check that `get_safe_fallback` guarantees (§4.6 of the
spec): nonempty, no hash sign, at least two words. -/
abbrev minimalRecheck (c : String) : Prop :=
  0 < c.data.length ∧ charInStr c '#' = false ∧ 2 ≤ wordCount c

/-- A service behaviour in which both collaborator calls succeed and the
channel listing has the expected shape. -/
def okService : ServiceBehavior :=
  { channelsResp := .ok (.obj [("items", .arr [.obj [("id", .str "chan")]])])
    insertResp := .ok () }

/-- A fresh successful attempt, used as a concrete witness input. -/
def wAttemptA : Attempt :=
  { video_url := "https://youtu.be/abc"
    clip_count := 3
    choice := (0 : Fin 4)
    tCheck := 30000
    tAct := 30000
    hashFn := fun _ => "h1"
    service := okService }

/-- A second attempt 10000 seconds later (inside the cooldown window). -/
def wAttemptB : Attempt :=
  { wAttemptA with tCheck := 40000, tAct := 40000 }

/-- A guard state whose fingerprint history already holds the digest of
`wAttemptA`'s rendered text, with a recent `last_run`. -/
def cexStateDup : GuardState :=
  { last_run := 1000, posted_hashes := ["h1"] }

/-- An attempt made 1000 seconds after `cexStateDup.last_run`, whose
fingerprint is already recorded there. -/
def cexAttemptDup : Attempt :=
  { wAttemptA with tCheck := 2000, tAct := 2000 }

/-- A guard state outside the cooldown window (relative to `wAttemptA`)
whose history already holds `wAttemptA`'s fingerprint. -/
def wStateDup : GuardState :=
  { last_run := 0, posted_hashes := ["h1"] }

/-- A raw Gemini response wrapped in prose whose embedded record passes
every validation rule (scenario 3 of the spec). -/
def okGeminiText : String :=
  "Sure! \x7b\"approved\": true, \"caption_final\": \"A quiet moment of reflection capturing the essence of style\", \"risk_level\": \"LOW\"\x7d"

/-- A raw response whose record is well-formed but not approved. -/
def rejectText : String :=
  "\x7b\"approved\": false, \"risk_reason\": \"too racy\"\x7d"

/-- The record embedded in `rejectText`. -/
def rejectData : Json :=
  .obj [("approved", .bool false), ("risk_reason", .str "too racy")]

/-- A raw response containing two well-formed top-level objects: the
greedy first-brace-to-last-brace span is not valid JSON although the
first top-level object is. -/
def cexDoubleObjText : String :=
  "\x7b\"a\": 1\x7d \x7b\"b\": 2\x7d"

/-- A persisted store content that passes the minimal re-check of
`get_safe_fallback` yet breaks the full validator rules (an at sign and
only three words). -/
def cexStoreAt : Option Json :=
  some (.obj [("caption_final", .str "team @joe wins")])

/-! ### Helper lemmas -/

theorem strInList_iff (x : String) (l : List String) : strInList x l = true ↔ x ∈ l := by
  simp [strInList, List.any_eq_true]

theorem get_safe_fallback_min (store : Option Json) :
    minimalRecheck (get_safe_fallback store) := by
  unfold get_safe_fallback
  split
  · split
    · split
      case isTrue val h =>
        simp only [Bool.and_eq_true, decide_eq_true_eq, Bool.not_eq_true'] at h
        exact ⟨by omega, h.1.2, h.2⟩
      case isFalse val h => decide
    · decide
  · decide

theorem fallback_response_props (cap : String) (e : Option String) (store : Option Json) :
    (fallback_response cap e store).approved = some (.bool true)
    ∧ (fallback_response cap e store).caption_style = some "FALLBACK"
    ∧ (fallback_response cap e store).final_caption = get_safe_fallback store :=
  ⟨rfl, rfl, rfl⟩

theorem parse_eq_noSpan {text : String} (title : String) (store : Option Json)
    (hE : extractJsonSpan text = none) :
    parse_json_response text title store = fallback_response title (some "Invalid JSON") store := by
  unfold parse_json_response
  simp only [hE]

theorem parse_eq_badJson {text span : String} (title : String) (store : Option Json)
    (hE : extractJsonSpan text = some span) (hL : jsonLoads span = none) :
    parse_json_response text title store = fallback_response title (some "JSON Decode") store := by
  unfold parse_json_response
  simp only [hE, hL]

theorem parse_eq_record {text span : String} {data : Json} (title : String) (store : Option Json)
    (hE : extractJsonSpan text = some span) (hL : jsonLoads span = some data) :
    parse_json_response text title store = processRecord data title store := by
  unfold parse_json_response
  simp only [hE, hL]

theorem parse_cases (text title : String) (store : Option Json) :
    (∃ e, parse_json_response text title store = fallback_response title e store)
    ∨ (∃ data, parse_json_response text title store = rejectionResult data title)
    ∨ (∃ caption data,
        parse_json_response text title store = successResult caption data
        ∧ 4 ≤ wordCount caption ∧ wordCount caption ≤ 25
        ∧ bannedLabelStarts.any (fun p => pyStartsWith (pyLower caption) p) = false
        ∧ strInList (pyLower caption) bannedKeywords = false
        ∧ charInStr caption '#' = false
        ∧ charInStr caption '@' = false) := by
  cases hE : extractJsonSpan text with
  | none => exact Or.inl ⟨some "Invalid JSON", parse_eq_noSpan title store hE⟩
  | some span =>
    cases hL : jsonLoads span with
    | none => exact Or.inl ⟨some "JSON Decode", parse_eq_badJson title store hE hL⟩
    | some data =>
      rw [parse_eq_record title store hE hL]
      unfold processRecord
      split
      · exact Or.inr (Or.inl ⟨data, rfl⟩)
      · split
        next raw heq =>
          unfold validateCaption
          split
          · exact Or.inl ⟨some "Validation: Length", rfl⟩
          next h1 =>
            split
            · exact Or.inl ⟨some "Validation: Prefix", rfl⟩
            next h2 =>
              split
              · exact Or.inl ⟨some "Validation: Classification", rfl⟩
              next h3 =>
                split
                · exact Or.inl ⟨some "Validation: Hashtag", rfl⟩
                next h4 =>
                  refine Or.inr (Or.inr ⟨pyStrip raw, data, rfl, by omega, by omega, ?_, ?_, ?_, ?_⟩)
                  · simpa using h2
                  · simpa using h3
                  · simp only [Bool.or_eq_true, not_or, Bool.not_eq_true] at h4
                    exact h4.1
                  · simp only [Bool.or_eq_true, not_or, Bool.not_eq_true] at h4
                    exact h4.2
        all_goals exact Or.inl ⟨some "AttributeError", rfl⟩

/-! ### Claim theorems -/

/-- C1 (validator soundness): whenever `_parse_json_response` returns a
result that is approved and validator-styled (the spec's `VALIDATED`,
i.e. not fallback-styled), its final caption has a word count in 4..25,
does not start (case-insensitively) with any banned label, is not a
banned classification phrase after case-folding, and contains neither a
hash sign nor an at sign. -/
theorem C1_validator_soundness (text title : String) (store : Option Json)
    (happr : specApproved (parse_json_response text title store) = true)
    (hstyle : specStyle (parse_json_response text title store) = SpecStyle.VALIDATED) :
    validCaptionText (parse_json_response text title store).final_caption := by
  rcases parse_cases text title store with ⟨e, h⟩ | ⟨data, h⟩ |
    ⟨caption, data, h, h1, h2, h3, h4, h5, h6⟩
  · rw [h] at hstyle
    simp [specStyle, fallback_response] at hstyle
  · rw [h] at happr
    simp [specApproved, rejectionResult, truthyO] at happr
  · rw [h]
    have h3a : ∀ p ∈ bannedLabelStarts, pyStartsWith (pyLower caption) p = false := by
      simpa using h3
    refine ⟨h1, h2, ?_, ?_, ?_, ?_, h4, h5, h6⟩
    · exact h3a _ (by simp [bannedLabelStarts])
    · exact h3a _ (by simp [bannedLabelStarts])
    · exact h3a _ (by simp [bannedLabelStarts])
    · exact h3a _ (by simp [bannedLabelStarts])

/-- Witness for C1 at the spec's scenario 3 response. -/
theorem C1_validator_soundness_witness :
    specApproved (parse_json_response okGeminiText "t" none) = true
    ∧ specStyle (parse_json_response okGeminiText "t" none) = SpecStyle.VALIDATED
    ∧ validCaptionText (parse_json_response okGeminiText "t" none).final_caption :=
  ⟨rfl, rfl, C1_validator_soundness okGeminiText "t" none rfl rfl⟩

/-- C2 (fallback totality): `_fallback_response` is a total function of
its inputs (any caption, any failure kind including no error at all, any
store content) that never consults the external service, and its result
is approved with a final text that is nonempty, hash-free and at least
two words long. -/
theorem C2_fallback_totality (cap : String) (error : Option String) (store : Option Json) :
    (fallback_response cap error store).approved = some (.bool true)
    ∧ minimalRecheck (fallback_response cap error store).final_caption :=
  ⟨rfl, get_safe_fallback_min store⟩

/-- Counterexample for C3: a persisted store content that makes a
`FALLBACK`-styled result carry a final text with an at sign and only
three words, violating the full structural rules the claim asserts. -/
theorem C3_counterexample :
    (fallback_response "t" none cexStoreAt).caption_style = some "FALLBACK"
    ∧ (fallback_response "t" none cexStoreAt).final_caption = "team @joe wins"
    ∧ charInStr (fallback_response "t" none cexStoreAt).final_caption '@' = true
    ∧ wordCount (fallback_response "t" none cexStoreAt).final_caption = 3 :=
  ⟨rfl, by decide, by decide, by decide⟩

/-- C3 as amended: for every store content and failure kind, a
`FALLBACK`-styled result of the analysis entry point satisfies the
minimal re-check actually enforced by `get_safe_fallback` (nonempty, no
hash sign, at least two words) — not the full validator rules. -/
theorem C3_fallback_minimal_recheck (g : Bool) (title : String)
    (resp : Except String String) (store : Option Json)
    (hstyle : (analyze_content g title resp store).caption_style = some "FALLBACK") :
    minimalRecheck (analyze_content g title resp store).final_caption := by
  cases g with
  | false => exact get_safe_fallback_min store
  | true =>
    cases resp with
    | error e => exact get_safe_fallback_min store
    | ok rtext =>
      rw [show analyze_content true title (Except.ok rtext) store =
        parse_json_response (pyStrip rtext) (sanitize_title title) store from rfl] at hstyle ⊢
      rcases parse_cases (pyStrip rtext) (sanitize_title title) store with ⟨e, h⟩ | ⟨data, h⟩ |
        ⟨caption, data, h, _⟩
      · rw [h]
        exact get_safe_fallback_min store
      · rw [h] at hstyle
        simp [rejectionResult] at hstyle
      · rw [h] at hstyle
        simp [successResult] at hstyle

/-- Witness for C3 as amended (inactive provider, empty store). -/
theorem C3_fallback_minimal_recheck_witness :
    (analyze_content false "t" (.ok "") none).caption_style = some "FALLBACK"
    ∧ minimalRecheck (analyze_content false "t" (.ok "") none).final_caption :=
  ⟨rfl, C3_fallback_minimal_recheck false "t" (.ok "") none rfl⟩

/-- C4 (approval denied): when the extracted record is not approved
(falsy or absent `approved`), `_parse_json_response` returns the
rejection dict — approved reading false, validator-styled (not
fallback), risk `HIGH`, the record's stated reason when there is one,
the original context as final text — and does so for every store
content, i.e. without consulting the fallback chain. -/
theorem C4_approval_denied (text span title : String) (data : Json) (store : Option Json)
    (hE : extractJsonSpan text = some span)
    (hL : jsonLoads span = some data)
    (happr : truthyO (jget data "approved") = false) :
    parse_json_response text title store = rejectionResult data title
    ∧ specApproved (rejectionResult data title) = false
    ∧ specStyle (rejectionResult data title) = SpecStyle.VALIDATED
    ∧ (rejectionResult data title).risk_level = Json.str "HIGH"
    ∧ (rejectionResult data title).final_caption = title
    ∧ (∀ v, jget data "risk_reason" = some v → (rejectionResult data title).risk_reason = v)
    ∧ ∀ store2 : Option Json, parse_json_response text title store2 = rejectionResult data title := by
  have key : ∀ st : Option Json, parse_json_response text title st = rejectionResult data title := by
    intro st
    rw [parse_eq_record title st hE hL]
    unfold processRecord
    rw [if_pos happr]
  refine ⟨key store, rfl, rfl, rfl, rfl, ?_, key⟩
  intro v hv
  simp [rejectionResult, hv]

/-- Witness for C4 at a concrete unapproved record. -/
theorem C4_approval_denied_witness :
    extractJsonSpan rejectText = some rejectText
    ∧ jsonLoads rejectText = some rejectData
    ∧ truthyO (jget rejectData "approved") = false
    ∧ parse_json_response rejectText "orig" none = rejectionResult rejectData "orig" :=
  ⟨rfl, rfl, rfl, (C4_approval_denied rejectText rejectText "orig" rejectData none rfl rfl rfl).1⟩

/-- Counterexample for C7: persisting the text "hi" and then reading the
store yields the hardcoded default, not "hi" — the read path re-checks
stored captions and rejects short ones. -/
theorem C7_counterexample :
    get_safe_fallback (save_successful_caption "hi" "orig" "EDITORIAL" "2026-01-01T00:00:00") =
      "A quiet moment captured today"
    ∧ ("A quiet moment captured today" : String) ≠ "hi" :=
  ⟨by decide, by decide⟩

/-- C7 as amended: the persist-then-read round trip returns the persisted
text provided it passes the read path's re-check (longer than five
characters, no hash sign, at least two words). -/
theorem C7_cache_roundtrip (t o st ts : String)
    (hlen : 5 < t.data.length)
    (hhash : charInStr t '#' = false)
    (hwc : 2 ≤ wordCount t) :
    get_safe_fallback (save_successful_caption t o st ts) = t := by
  show (if t.data.length > 5 && !(charInStr t '#') && wordCount t ≥ 2 then t
    else "A quiet moment captured today") = t
  split
  · rfl
  next h =>
    exfalso
    simp only [Bool.and_eq_true, decide_eq_true_eq, Bool.not_eq_true', gt_iff_lt, ge_iff_le] at h
    exact h ⟨⟨hlen, hhash⟩, hwc⟩

/-- Witness for C7 as amended. -/
theorem C7_cache_roundtrip_witness :
    5 < ("a quiet test caption" : String).data.length
    ∧ charInStr "a quiet test caption" '#' = false
    ∧ 2 ≤ wordCount "a quiet test caption"
    ∧ get_safe_fallback (save_successful_caption "a quiet test caption" "orig" "EDITORIAL" "ts") =
      "a quiet test caption" :=
  ⟨by decide, by decide, by decide,
    C7_cache_roundtrip "a quiet test caption" "orig" "EDITORIAL" "ts"
      (by decide) (by decide) (by decide)⟩

/-- Counterexample for C8: a response holding two well-formed top-level
objects.  The first top-level object is valid JSON, yet the code's
extraction takes the greedy span from the first opening brace to the
last closing brace, which does not parse, so the fallback result is
returned — the code does not locate the first top-level object. -/
theorem C8_counterexample :
    extractJsonSpan cexDoubleObjText = some cexDoubleObjText
    ∧ jsonLoads cexDoubleObjText = none
    ∧ jsonLoads "\x7b\"a\": 1\x7d" = some (.obj [("a", .num 1)])
    ∧ (parse_json_response cexDoubleObjText "t" none).caption_style = some "FALLBACK"
    ∧ (parse_json_response cexDoubleObjText "t" none).final_caption =
      "A quiet moment captured today" :=
  ⟨rfl, rfl, rfl, rfl, rfl⟩

/-- C8 as amended: validation extracts the span from the first opening
brace to the last closing brace (`extractJsonSpan`); if no such span
exists, or the span is not a well-formed record, the fallback result is
returned in place of the raw text, and otherwise the parsed record is
processed. -/
theorem C8_structural_extraction (text title : String) (store : Option Json) :
    (extractJsonSpan text = none →
      parse_json_response text title store = fallback_response title (some "Invalid JSON") store)
    ∧ (∀ span, extractJsonSpan text = some span → jsonLoads span = none →
      parse_json_response text title store = fallback_response title (some "JSON Decode") store)
    ∧ ∀ span data, extractJsonSpan text = some span → jsonLoads span = some data →
      parse_json_response text title store = processRecord data title store :=
  ⟨fun h => parse_eq_noSpan title store h,
   fun _ h1 h2 => parse_eq_badJson title store h1 h2,
   fun _ _ h1 h2 => parse_eq_record title store h1 h2⟩

/-- Witness for C8 as amended (a braceless response falls back). -/
theorem C8_structural_extraction_witness :
    extractJsonSpan "no json here" = none
    ∧ parse_json_response "no json here" "t" none =
      fallback_response "t" (some "Invalid JSON") none :=
  ⟨rfl, (C8_structural_extraction "no json here" "t" none).1 rfl⟩

theorem promote_sync_rl (s : GuardState) (b : Attempt)
    (h : b.tCheck - s.last_run < 6 * 3600) :
    promote_sync s b = (.skippedRateLimited, s, false) := by
  unfold promote_sync
  rw [if_pos h]

theorem promote_sync_cases (s : GuardState) (a : Attempt) :
    ((promote_sync s a).1 ≠ Outcome.performed ∧ (promote_sync s a).2.1 = s)
    ∨ (promote_sync s a = (.performed, register_success s a.tAct (fpOf a), true)
      ∧ 6 * 3600 ≤ a.tCheck - s.last_run
      ∧ strInList (fpOf a) s.posted_hashes = false) := by
  unfold promote_sync
  split
  · exact Or.inl ⟨by simp, rfl⟩
  next h1 =>
    split
    · exact Or.inl ⟨by simp, rfl⟩
    next h2 =>
      repeat' split
      all_goals try exact Or.inl ⟨by simp, rfl⟩
      exact Or.inr ⟨rfl, by omega, by simpa using h2⟩

theorem register_success_last (s : GuardState) (t : Int) (h : String) :
    (register_success s t h).last_run = t := rfl

theorem register_success_posted (s : GuardState) (t : Int) (h : String) :
    (register_success s t h).posted_hashes =
      (s.posted_hashes ++ [h]).drop (s.posted_hashes.length + 1 - 50) := by
  show (if (s.posted_hashes ++ [h]).length > 50 then
      (s.posted_hashes ++ [h]).drop ((s.posted_hashes ++ [h]).length - 50)
    else s.posted_hashes ++ [h]) =
    (s.posted_hashes ++ [h]).drop (s.posted_hashes.length + 1 - 50)
  split
  next hlen => simp
  next hlen =>
    have h0 : s.posted_hashes.length + 1 - 50 = 0 := by
      simp at hlen
      omega
    rw [h0, List.drop_zero]

theorem register_success_len (s : GuardState) (t : Int) (h : String) :
    (register_success s t h).posted_hashes.length = min (s.posted_hashes.length + 1) 50 := by
  rw [register_success_posted]
  simp [List.length_drop]
  omega

theorem register_success_suffix (s : GuardState) (t : Int) (h : String) :
    (register_success s t h).posted_hashes.IsSuffix (s.posted_hashes ++ [h]) := by
  rw [register_success_posted]
  exact ⟨(s.posted_hashes ++ [h]).take (s.posted_hashes.length + 1 - 50),
    List.take_append_drop _ _⟩

theorem register_success_mem (s : GuardState) (t : Int) (h : String) :
    strInList h (register_success s t h).posted_hashes = true := by
  rw [strInList_iff, register_success_posted]
  have hk : s.posted_hashes.length + 1 - 50 ≤ s.posted_hashes.length := by omega
  rw [List.drop_append_of_le_length hk]
  exact List.mem_append_right _ (List.mem_singleton_self h)

theorem lastRun_step_mono (s : GuardState) (a : Attempt) (h : a.tCheck ≤ a.tAct) :
    s.last_run ≤ ((promote_sync s a).2.1).last_run := by
  rcases promote_sync_cases s a with ⟨_, hs⟩ | ⟨he, hge, _⟩
  · rw [hs]
  · rw [he]
    show s.last_run ≤ (register_success s a.tAct (fpOf a)).last_run
    rw [register_success_last]
    omega

theorem lastRun_trace_mono (s : GuardState) (as : List Attempt) (ht : wellTimed as) :
    s.last_run ≤ (runTrace s as).last_run := by
  induction as generalizing s with
  | nil => exact le_refl _
  | cons a as ih =>
    have h1 : s.last_run ≤ ((promote_sync s a).2.1).last_run :=
      lastRun_step_mono s a (ht a (List.mem_cons_self a as))
    have h2 := ih ((promote_sync s a).2.1) (fun b hb => ht b (List.mem_cons_of_mem a hb))
    rw [show runTrace s (a :: as) = runTrace ((promote_sync s a).2.1) as from rfl]
    exact le_trans h1 h2

theorem posted_len_step (s : GuardState) (a : Attempt) (hs : s.posted_hashes.length ≤ 50) :
    ((promote_sync s a).2.1).posted_hashes.length ≤ 50 := by
  rcases promote_sync_cases s a with ⟨_, h⟩ | ⟨h, _, _⟩
  · rw [h]
    exact hs
  · rw [h]
    show (register_success s a.tAct (fpOf a)).posted_hashes.length ≤ 50
    rw [register_success_len]
    omega

theorem posted_len_trace (s : GuardState) (hs : s.posted_hashes.length ≤ 50)
    (as : List Attempt) : (runTrace s as).posted_hashes.length ≤ 50 := by
  induction as generalizing s with
  | nil => exact hs
  | cons a as ih =>
    rw [show runTrace s (a :: as) = runTrace ((promote_sync s a).2.1) as from rfl]
    exact ih _ (posted_len_step s a hs)

/-- C5 (cooldown): if an attempt performs the external action
successfully (its `last_run` being recorded at its action time), then
along any subsequent well-timed trace, every attempt whose check time is
within six hours of that action time is skipped as rate-limited without
issuing the side-effecting insert call; moreover the rate-limit check
runs before the duplicate check: inside the cooldown window the outcome
is always `skippedRateLimited`, whatever the fingerprint history. -/
theorem C5_cooldown (s0 : GuardState) (a : Attempt) (as : List Attempt) (i : Nat)
    (hi : i < as.length)
    (hperf : (promote_sync s0 a).1 = Outcome.performed)
    (ht : wellTimed as)
    (hwin : (as.get ⟨i, hi⟩).tCheck - a.tAct < 6 * 3600) :
    promote_sync (preState ((promote_sync s0 a).2.1) as i) (as.get ⟨i, hi⟩) =
      (Outcome.skippedRateLimited, preState ((promote_sync s0 a).2.1) as i, false)
    ∧ ∀ (s : GuardState) (b : Attempt), b.tCheck - s.last_run < 6 * 3600 →
      promote_sync s b = (Outcome.skippedRateLimited, s, false) := by
  constructor
  · rcases promote_sync_cases s0 a with ⟨hne, _⟩ | ⟨heq, _, _⟩
    · exact absurd hperf hne
    · have hlast1 : ((promote_sync s0 a).2.1).last_run = a.tAct := by
        rw [heq]
        rfl
      have hmono : ((promote_sync s0 a).2.1).last_run ≤
          (preState ((promote_sync s0 a).2.1) as i).last_run :=
        lastRun_trace_mono _ _ (fun b hb => ht b (List.mem_of_mem_take hb))
      rw [hlast1] at hmono
      exact promote_sync_rl _ _ (by omega)
  · exact fun s b hb => promote_sync_rl s b hb

/-- Witness for C5: a successful attempt at time 30000 followed by an
attempt at time 40000 (10000 s later) that is skipped as rate-limited. -/
theorem C5_cooldown_witness :
    (promote_sync initState wAttemptA).1 = Outcome.performed
    ∧ wAttemptB.tCheck - wAttemptA.tAct < 6 * 3600
    ∧ promote_sync (preState ((promote_sync initState wAttemptA).2.1) [wAttemptB] 0) wAttemptB =
      (Outcome.skippedRateLimited,
        preState ((promote_sync initState wAttemptA).2.1) [wAttemptB] 0, false) :=
  ⟨rfl, by decide,
    (C5_cooldown initState wAttemptA [wAttemptB] 0 (by decide) rfl
      (fun b hb => by
        rw [List.mem_singleton] at hb
        subst hb
        decide)
      (by decide)).1⟩

/-- Counterexample for C6: an attempt whose fingerprint is already in the
history but which arrives inside the cooldown window is skipped as
`RateLimited`, not `Duplicate` — the rate-limit check runs first, so the
claim's unconditional "returns Skipped with reason Duplicate" fails. -/
theorem C6_counterexample :
    strInList (fpOf cexAttemptDup) cexStateDup.posted_hashes = true
    ∧ promote_sync cexStateDup cexAttemptDup = (Outcome.skippedRateLimited, cexStateDup, false)
    ∧ Outcome.skippedRateLimited ≠ Outcome.skippedDuplicate :=
  ⟨rfl, rfl, by decide⟩

/-- C6 as amended: an attempt whose fingerprint is in the history is
skipped as `Duplicate` when the cooldown has elapsed (and as
`RateLimited` otherwise); in both cases it never performs the
side-effecting insert and leaves the state unchanged; and a performed
attempt's fingerprint was not in the pre-state history and is recorded
afterwards — so at most one success can occur while a fingerprint
remains in the recorded history. -/
theorem C6_dedup (s : GuardState) (a : Attempt) :
    (strInList (fpOf a) s.posted_hashes = true → 6 * 3600 ≤ a.tCheck - s.last_run →
      promote_sync s a = (Outcome.skippedDuplicate, s, false))
    ∧ (strInList (fpOf a) s.posted_hashes = true →
      (promote_sync s a).1 ≠ Outcome.performed ∧ (promote_sync s a).2 = (s, false))
    ∧ ((promote_sync s a).1 = Outcome.performed →
      strInList (fpOf a) s.posted_hashes = false
      ∧ strInList (fpOf a) ((promote_sync s a).2.1).posted_hashes = true) := by
  have hdupCase : ∀ (_ : strInList (fpOf a) s.posted_hashes = true)
      (_ : ¬(a.tCheck - s.last_run < 6 * 3600)),
      promote_sync s a = (Outcome.skippedDuplicate, s, false) := by
    intro hdup hge
    unfold promote_sync
    rw [if_neg hge, if_pos hdup]
  refine ⟨fun hdup hge => hdupCase hdup (by omega), fun hdup => ?_, fun hperf => ?_⟩
  · by_cases hrl : a.tCheck - s.last_run < 6 * 3600
    · rw [promote_sync_rl s a hrl]
      exact ⟨by simp, rfl⟩
    · rw [hdupCase hdup hrl]
      exact ⟨by simp, rfl⟩
  · rcases promote_sync_cases s a with ⟨hne, _⟩ | ⟨heq, _, hnot⟩
    · exact absurd hperf hne
    · refine ⟨hnot, ?_⟩
      rw [heq]
      show strInList (fpOf a) (register_success s a.tAct (fpOf a)).posted_hashes = true
      exact register_success_mem s a.tAct (fpOf a)

/-- Witness for C6 as amended: duplicate fingerprint, cooldown elapsed,
skipped as `Duplicate` with no state change and no insert call. -/
theorem C6_dedup_witness :
    strInList (fpOf wAttemptA) wStateDup.posted_hashes = true
    ∧ 6 * 3600 ≤ wAttemptA.tCheck - wStateDup.last_run
    ∧ promote_sync wStateDup wAttemptA = (Outcome.skippedDuplicate, wStateDup, false) :=
  ⟨rfl, by decide, (C6_dedup wStateDup wAttemptA).1 rfl (by decide)⟩

/-- C9 (no unhandled errors): for every guard state and every behaviour
of the collaborators — including any raising pattern — a promotion
attempt always returns a normal outcome, either performing-and-recording
or leaving the state untouched with a skip outcome; a raising analysis
call yields exactly the fallback result; and every analysis result is a
validated success, a fallback, or the surfaced rejection — never a
propagated exception. -/
theorem C9_no_unhandled_errors :
    (∀ (s : GuardState) (a : Attempt),
      ((promote_sync s a).1 = Outcome.performed
        ∧ (promote_sync s a).2.1 = register_success s a.tAct (fpOf a))
      ∨ ((promote_sync s a).1 ≠ Outcome.performed ∧ (promote_sync s a).2.1 = s))
    ∧ (∀ (title : String) (store : Option Json) (e : String),
      analyze_content true title (.error e) store = fallback_response title (some e) store)
    ∧ ∀ (g : Bool) (title : String) (resp : Except String String) (store : Option Json),
      (analyze_content g title resp store).caption_style = some "EDITORIAL"
      ∨ (analyze_content g title resp store).caption_style = some "FALLBACK"
      ∨ ((analyze_content g title resp store).caption_style = none
        ∧ (analyze_content g title resp store).risk_level = Json.str "HIGH") := by
  refine ⟨?_, ?_, ?_⟩
  · intro s a
    rcases promote_sync_cases s a with ⟨hne, hs⟩ | ⟨heq, _, _⟩
    · exact Or.inr ⟨hne, hs⟩
    · exact Or.inl ⟨by rw [heq], by rw [heq]⟩
  · intro title store e
    rfl
  · intro g title resp store
    cases g with
    | false => exact Or.inr (Or.inl rfl)
    | true =>
      cases resp with
      | error e => exact Or.inr (Or.inl rfl)
      | ok rtext =>
        rw [show analyze_content true title (Except.ok rtext) store =
          parse_json_response (pyStrip rtext) (sanitize_title title) store from rfl]
        rcases parse_cases (pyStrip rtext) (sanitize_title title) store with ⟨e, h⟩ |
          ⟨data, h⟩ | ⟨caption, data, h, _⟩
        · rw [h]
          exact Or.inr (Or.inl rfl)
        · rw [h]
          exact Or.inr (Or.inr ⟨rfl, rfl⟩)
        · rw [h]
          exact Or.inl rfl

/-- C10 (guard-state invariant): every attempt (with its two clock reads
in order) only ever advances `last_run`; along any well-timed trace
`last_run` never rolls back; `_register_success` appends the fingerprint
and keeps the most recent entries as a suffix (oldest evicted first)
bounded by 50; and every trace from the initial state keeps the history
within 50 entries. -/
theorem C10_guard_state_invariant :
    (∀ (s : GuardState) (a : Attempt), a.tCheck ≤ a.tAct →
      s.last_run ≤ ((promote_sync s a).2.1).last_run)
    ∧ (∀ (s : GuardState) (as : List Attempt), wellTimed as →
      s.last_run ≤ (runTrace s as).last_run)
    ∧ (∀ (s : GuardState) (t : Int) (h : String),
      (register_success s t h).last_run = t
      ∧ (register_success s t h).posted_hashes =
          (s.posted_hashes ++ [h]).drop (s.posted_hashes.length + 1 - 50)
      ∧ (register_success s t h).posted_hashes.length = min (s.posted_hashes.length + 1) 50
      ∧ (register_success s t h).posted_hashes.IsSuffix (s.posted_hashes ++ [h]))
    ∧ ∀ as : List Attempt, (runTrace initState as).posted_hashes.length ≤ 50 := by
  refine ⟨lastRun_step_mono, lastRun_trace_mono, ?_, ?_⟩
  · intro s t h
    exact ⟨register_success_last s t h, register_success_posted s t h,
      register_success_len s t h, register_success_suffix s t h⟩
  · intro as
    exact posted_len_trace initState (by decide) as

/-- Witness for C10 at a concrete attempt with ordered clock reads. -/
theorem C10_guard_state_invariant_witness :
    wAttemptA.tCheck ≤ wAttemptA.tAct
    ∧ initState.last_run ≤ ((promote_sync initState wAttemptA).2.1).last_run :=
  ⟨by decide, C10_guard_state_invariant.1 initState wAttemptA (by decide)⟩
